import Mathlib

/-!
Verification of the Multi-agent-task-solver backend.

This file gives a shallow embedding, in Lean 4, of the parts of the
repository that the specification's claims are about:

* `src/backend/src/utils/helpers.py`   — `last_nonempty_ai_message`
* `src/backend/src/tools/visualization.py` — `plot_table` (table parsing,
  column selection, chart-type dispatch)
* `src/backend/src/agents/nodes.py`    — the visualizer's auto-plot
  fallback and its chart-kind inference
* `src/backend/src/agents/routing.py`  — `route_from_researcher`,
  `route_from_summarizer`, `route_from_visualizer`
* `src/backend/src/agents/graph.py`    — `create_graph`'s wiring of nodes
  and conditional edges, modelled as a step function and a fuelled run.

Python strings are modelled as Lean `String`; machine-level concerns
(matplotlib rendering, file paths built from timestamps and uuids, the
LLM itself) are abstracted: the LLM is an oracle parameter, and a
successful plot is represented by the structured data the code computes
(data frame, x column, y column, chart kind) rather than a PNG file.
-/

namespace MultiAgent

/-! ## String utilities

Boolean versions of the Python string operations used by the code:
substring containment (`in`), `str.strip`, `str.strip('|')`,
`str.splitlines`, `str.lower`. -/

/-- Is `pat` a prefix of `s`? (decidable, on character lists) -/
def prefixOf : List Char → List Char → Bool
  | [], _ => true
  | _ :: _, [] => false
  | a :: as, b :: bs => a = b && prefixOf as bs

/-- Is `pat` an infix (contiguous substring) of `s`? -/
def infixOf (pat : List Char) : List Char → Bool
  | [] => prefixOf pat []
  | c :: rest => prefixOf pat (c :: rest) || infixOf pat (rest)

/-- Python `pat in s` for strings: substring containment. -/
def containsSub (s pat : String) : Bool :=
  infixOf pat.toList s.toList

/-- Python `c in s` for a single character. -/
def containsChar (s : String) (c : Char) : Bool :=
  s.toList.any (fun x => x = c)

/-- Drop the characters satisfying `p` from both ends of a character list. -/
def stripCharsList (p : Char → Bool) (s : List Char) : List Char :=
  ((s.dropWhile p).reverse.dropWhile p).reverse

/-- Python `str.strip()`: drop whitespace from both ends. -/
def pyStrip (s : String) : String :=
  String.mk (stripCharsList Char.isWhitespace s.toList)

/-- Python `str.strip('|')`: drop pipe characters from both ends. -/
def stripPipes (s : String) : String :=
  String.mk (stripCharsList (fun c => c = '|') s.toList)

/-- Python `str.lower()` (the names and contents in play are ASCII). -/
def lowerStr (s : String) : String :=
  String.mk (s.toList.map Char.toLower)

/-- Split on a single separator character (Python `str.split(sep)`,
also `String.splitOn` for a one-character separator): `n` separators
yield `n + 1` pieces, empty pieces included. -/
def splitOnCharAux (sep : Char) (cur : List Char) : List Char → List (List Char)
  | [] => [cur.reverse]
  | c :: rest =>
      if c = sep then cur.reverse :: splitOnCharAux sep [] rest
      else splitOnCharAux sep (c :: cur) rest

def splitOnChar (sep : Char) (s : String) : List String :=
  (splitOnCharAux sep [] s.toList).map String.mk

/-- Python `str.splitlines()` restricted to newline-separated text
(the inputs in play contain no other line terminators). -/
def splitLines (s : String) : List String := splitOnChar '\n' s

/-- Split into maximal runs of characters not satisfying `p`,
dropping the separators (Python `re.split` on runs, or
`str.split()`). -/
def fieldsByAux (p : Char → Bool) (cur : List Char) : List Char → List (List Char)
  | [] => if cur.isEmpty then [] else [cur.reverse]
  | c :: rest =>
      if p c then
        if cur.isEmpty then fieldsByAux p [] rest
        else cur.reverse :: fieldsByAux p [] rest
      else fieldsByAux p (c :: cur) rest

def fieldsBy (p : Char → Bool) (s : String) : List String :=
  (fieldsByAux p [] s.toList).map String.mk

/-- Join strings with a separator (Python `sep.join`). -/
def joinWith (sep : String) : List String → String
  | [] => ""
  | [x] => x
  | x :: y :: rest => x ++ sep ++ joinWith sep (y :: rest)

/-! ## `utils/helpers.py` — `last_nonempty_ai_message`

Message content may be a plain string or a list of strings (the code
joins a list with spaces, skipping falsy entries).  The function scans
the messages in order and keeps the most recent `AIMessage` whose text
is non-blank; `ToolMessage` and `HumanMessage` are skipped.  The
`_flatten_messages` preprocessing is the identity on the flat,
`None`-free message sequences the claim is about, so the embedding
works on a flat list. -/

inductive HContent where
  | str (s : String)
  | list (xs : List String)
deriving DecidableEq, Repr

inductive HMsg where
  | ai (content : HContent)
  | human (content : String)
  | tool (content : String)
deriving DecidableEq, Repr

/-- Text of an AI message's content: a list is joined with spaces after
dropping falsy (empty) entries, per `" ".join(str(x) for x in content if x)`. -/
def aiText : HContent → String
  | .str s => s
  | .list xs => joinWith " " (xs.filter (fun x => !(x = "")))

/-- Does this message count as a non-empty AI message?  (`text.strip()`
must be non-empty.) -/
def isNonblankAI : HMsg → Bool
  | .ai c => !(pyStrip (aiText c) = "")
  | _ => false

/-- Loop body of `last_nonempty_ai_message`: update `last_found` when
the current message is an AI message with non-blank text. -/
def updLast (last_found : Option HMsg) (m : HMsg) : Option HMsg :=
  match m with
  | .ai c => if !(pyStrip (aiText c) = "") then some (.ai c) else last_found
  | _ => last_found

/-- `last_nonempty_ai_message` from `utils/helpers.py`: iterate over the
messages, remembering the last AI message with non-blank text. -/
def last_nonempty_ai_message (msgs : List HMsg) : Option HMsg :=
  msgs.foldl updLast none

/-! ## `tools/visualization.py` — `plot_table`

The tool strips the input, tries three parsing strategies (markdown pipe
table, comma CSV, whitespace-separated), chooses an x column and a y
column, and dispatches on the chart type.  `pd.read_csv` is modelled at
the level the code uses it: the first non-blank line is the header, the
remaining non-blank lines are rows split on the delimiter, a row longer
than the header is a parse failure, a shorter row is padded with NaN
(modelled as the empty cell).  pandas' index-promotion for uniformly
overlong rows and its quoting rules are not modelled; every concrete
input used below stays inside the modelled regime.  A column is numeric
when the frame has at least one row and every cell is empty (NaN) or a
numeric literal. -/

/-- Does pandas read this cell as a number?  Optional surrounding
whitespace and sign, digits with an optional decimal point, optional
exponent. -/
def isMantissa (s : String) : Bool :=
  match splitOnChar '.' s with
  | [a] => !(a = "") && a.toList.all Char.isDigit
  | [a, b] => a.toList.all Char.isDigit && b.toList.all Char.isDigit
      && (!(a = "") || !(b = ""))
  | _ => false

/-- Strip one leading sign character. -/
def dropSign : List Char → List Char
  | '+' :: r => r
  | '-' :: r => r
  | r => r

/-- Numeric-literal test used for pandas dtype inference. -/
def isNumLit (s : String) : Bool :=
  let t := lowerStr (pyStrip s)
  let t1 := String.mk (dropSign t.toList)
  match splitOnChar 'e' t1 with
  | [m] => isMantissa m
  | [m, ex] =>
      let ex1 := String.mk (dropSign ex.toList)
      isMantissa m && !(ex1 = "") && ex1.toList.all Char.isDigit
  | _ => false

/-- A parsed data frame: header (column names) and rows of cells.  Rows
are padded to the header's width; the empty cell stands for NaN. -/
structure DataFrame where
  header : List String
  rows : List (List String)
deriving DecidableEq, Repr

/-- Cells of a comma-delimited line. -/
def csvCells (line : String) : List String := splitOnChar ',' line

/-- Cells of a whitespace-delimited line (runs of whitespace, as with
pandas `sep=r'\s+'`, which skips leading/trailing whitespace). -/
def wsCells (line : String) : List String :=
  fieldsBy Char.isWhitespace line

/-- Shared `read_csv` model: header from the first non-blank line, rows
from the rest; a row wider than the header raises (returns `none`),
narrower rows are padded with NaN cells. -/
def readTable (cells : String → List String) (blank : String → Bool)
    (txt : String) : Option DataFrame :=
  match (splitLines txt).filter (fun l => !(blank l)) with
  | [] => none
  | h :: rest =>
      let header := cells h
      let rows := rest.map cells
      if rows.any (fun r => header.length < r.length) then none
      else some ⟨header, rows.map (fun r => r ++ List.replicate (header.length - r.length) "")⟩

/-- `pd.read_csv(io.StringIO(txt))`. -/
def read_csv (txt : String) : Option DataFrame :=
  readTable csvCells (fun l => l = "") txt

/-- `pd.read_csv(io.StringIO(txt), sep=r'\s+')`. -/
def read_ws (txt : String) : Option DataFrame :=
  readTable wsCells (fun l => wsCells l = []) txt

/-- Character class `[-\s:]` of the markdown separator regex. -/
def sepBodyChar (c : Char) : Bool := c = '-' || c = ':' || c.isWhitespace

/-- `re.search(r'\|[-\s:]+\|', txt)`: somewhere in the text, a pipe
followed by at least one `-`, `:` or whitespace character and then
another pipe.  The character class excludes the pipe, so the greedy
scan over the maximal class run is complete. -/
def hasMdSepPattern : List Char → Bool
  | [] => false
  | c :: rest =>
      (c = '|' &&
        (let run := rest.takeWhile sepBodyChar
         !run.isEmpty && (rest.drop run.length).head? = some '|'))
      || hasMdSepPattern rest

/-- `re.match(r'^\s*\|?\s*-{2,}\s*\|?', line)`: optional leading
whitespace, an optional pipe, optional whitespace, then at least two
dashes.  (The trailing `\s*\|?` always matches, so it adds nothing.) -/
def isSepLine (l : String) : Bool :=
  let t := l.toList.dropWhile Char.isWhitespace
  let t := match t with
    | '|' :: r => r
    | r => r
  let t := t.dropWhile Char.isWhitespace
  match t with
  | '-' :: '-' :: _ => true
  | _ => false

/-- The three parsing strategies of `plot_table`, in source order:
markdown pipe table (drop separator lines, strip outer pipes, then
comma-parse), plain CSV when the text has a newline and a comma, and
finally whitespace-separated.  A strategy that raises yields `none` and
falls through to the whitespace strategy. -/
def parseDF (txt : String) : Option DataFrame :=
  let viaFirstTwo :=
    if containsChar txt '|' && hasMdSepPattern txt.toList then
      let lines := (splitLines txt).filter (fun l => !(isSepLine l))
      let stripped := lines.map (fun l => stripPipes (pyStrip l))
      read_csv (joinWith "\n" stripped)
    else if containsChar txt '\n' && containsChar txt ',' then
      read_csv txt
    else none
  match viaFirstTwo with
  | some df => some df
  | none => read_ws txt

/-- Is this column name date-like?  `c.lower() in ("date","year","time")
or re.search(r'date|year|time', c.lower())`. -/
def isDateLike (c : String) : Bool :=
  let l := lowerStr c
  (l = "date" || l = "year" || l = "time")
  || containsSub l "date" || containsSub l "year" || containsSub l "time"

/-- Cells of column `i`. -/
def colCells (df : DataFrame) (i : Nat) : List String :=
  df.rows.map (fun r => r.getD i "")

/-- pandas `is_numeric_dtype` for column `i` of a frame read from text. -/
def colNumeric (df : DataFrame) (i : Nat) : Bool :=
  !df.rows.isEmpty && (colCells df i).all (fun c => c = "" || isNumLit c)

/-- The x index chosen by `plot_table`: first date-like column, else
column 0. -/
def chooseX (df : DataFrame) : Nat :=
  (df.header.findIdx? isDateLike).getD 0

/-- Column selection of `plot_table`: `numeric_cols`, the numeric
columns other than x, in declaration order.  `chooseColumns` below
returns the `(x, y)` indices or `none` for the `"No numeric column
found"` error: `y` falls back to column 1 when the frame has more than
one column; the subsequent `pd.to_numeric` coercion branch runs only
when `y` is still `None`, which requires fewer than two columns, so
that branch cannot fire. -/
def numericNonX (df : DataFrame) : List Nat :=
  (List.range df.header.length).filter (fun i => colNumeric df i && !(i = chooseX df))

/-- Assemble the `(x, y)` choice from `numericNonX` and the fallbacks. -/
def chooseColumns (df : DataFrame) : Option (Nat × Nat) :=
  let xIdx := chooseX df
  let y0 : Option Nat :=
    match numericNonX df with
    | i :: _ => some i
    | [] => if 1 < df.header.length then some 1 else none
  let y1 : Option Nat :=
    match y0 with
    | some i => some i
    | none => if 2 ≤ df.header.length then some 1 else none
  match y1 with
  | some y => some (xIdx, y)
  | none => none

/-- Failure modes of `plot_table` (each a `ValueError` in the source). -/
inductive PlotErr where
  | emptyInput
  | unparseable
  | noNumericColumn
  | unsupportedChart (chart_type : String)
deriving DecidableEq, Repr

/-- A successful plot: the parsed frame, the chosen column indices and
the chart kind.  The PNG path (timestamp + uuid) is not modelled. -/
structure PlotOk where
  df : DataFrame
  xIdx : Nat
  yIdx : Nat
  chart : String
deriving DecidableEq, Repr

/-- `plot_table(table_text, chart_type)` from `tools/visualization.py`.
The `pd.to_datetime(..., errors='ignore')` step changes only the
plotted values, never the parse result or the chosen columns, and is
omitted. -/
def plot_table (table_text chart_type : String) : Except PlotErr PlotOk :=
  let txt := pyStrip table_text
  if txt = "" then .error .emptyInput
  else
    match parseDF txt with
    | none => .error .unparseable
    | some df =>
        match chooseColumns df with
        | none => .error .noNumericColumn
        | some (x, y) =>
            if chart_type = "line" ∨ chart_type = "bar" ∨ chart_type = "scatter" then
              .ok ⟨df, x, y, chart_type⟩
            else .error (.unsupportedChart chart_type)

/-! ## `agents/nodes.py` — the visualizer's chart-kind inference -/

/-- Chart-kind inference of the visualizer's auto-plot fallback:
`"bar"` when the lowercased text contains `"bar chart"`, or contains
`"bar"` while not containing `"line"`; else `"scatter"` when it
contains `"scatter"`; else `"line"`. -/
def inferChartType (content : String) : String :=
  let cl := lowerStr content
  if containsSub cl "bar chart" || (containsSub cl "bar" && !(containsSub cl "line")) then
    "bar"
  else if containsSub cl "scatter" then
    "scatter"
  else
    "line"

/-! ## `agents/routing.py` and `agents/graph.py` — the pipeline

Graph messages carry an author tag (which node produced them) so that
claims about "Summarize- or Visualize-authored messages" can be stated.
`hasattr(last, "tool_calls") and last.tool_calls` is true exactly for
an `AIMessage` with a non-empty tool-call list; tool calls are
identified by the requested tool's name.  The LLM is an oracle mapping
the index of the LLM invocation to the message it returns. -/

inductive Node where
  | planner
  | researcher
  | summarizer
  | visualizer
  | tools
deriving DecidableEq, Repr

inductive Msg where
  | ai (author : Node) (content : String) (tool_calls : List String)
  | human (content : String)
  | tool (author : Node) (content : String)
deriving DecidableEq, Repr

/-- Which node produced the message (`none` for a human message). -/
def msgAuthor : Msg → Option Node
  | .ai a _ _ => some a
  | .human _ => none
  | .tool a _ => some a

/-- The message was not produced by the Summarize or Visualize step. -/
def notSumVis (m : Msg) : Bool :=
  match msgAuthor m with
  | some .summarizer => false
  | some .visualizer => false
  | _ => true

/-- Graph state (`MyGraphState`): appended messages plus optional
`mode` and `table_text` entries (`state.get` with a default models an
absent key as `none`). -/
structure GState where
  messages : List Msg
  mode : Option String
  table_text : Option String
deriving DecidableEq, Repr

/-- `hasattr(last, "tool_calls") and last.tool_calls`: the last message
is an AI message with a non-empty tool-call list.  (The routers are
only invoked after a node has appended a message, so the list is never
empty there; `getLast?` totalises the model.) -/
def lastHasToolCalls (msgs : List Msg) : Bool :=
  match msgs.getLast? with
  | some (.ai _ _ tcs) => !tcs.isEmpty
  | _ => false

/-- langgraph's `END` sentinel. -/
def endKey : String := "__end__"

/-- `route_from_researcher` from `agents/routing.py`. -/
def route_from_researcher (s : GState) : String :=
  if lastHasToolCalls s.messages then "tools"
  else if s.mode.getD "full" = "research" then endKey
  else "summarizer_agent"

/-- `route_from_summarizer` from `agents/routing.py`. -/
def route_from_summarizer (s : GState) : String :=
  if lastHasToolCalls s.messages then "tools"
  else if s.mode.getD "full" = "summary" then endKey
  else "visualizer_agent"

/-- `route_from_visualizer` from `agents/routing.py`. -/
def route_from_visualizer (s : GState) : String :=
  if lastHasToolCalls s.messages then "tools"
  else endKey

/-- Where an edge leads: another node, the terminal state, or a runtime
routing failure (a router returned a key the conditional-edge mapping
does not contain). -/
inductive Dest where
  | node (n : Node)
  | halt
  | stuck
deriving DecidableEq, Repr

/-- Conditional-edge mapping attached to `researcher_agent` in
`create_graph`. -/
def researcherMap (k : String) : Dest :=
  if k = "tools" then .node .tools
  else if k = "summarizer_agent" then .node .summarizer
  else if k = endKey then .halt
  else .stuck

/-- Conditional-edge mapping attached to `tools` (`lambda state:
"researcher_agent"` with a one-entry mapping). -/
def toolsMap (k : String) : Dest :=
  if k = "researcher_agent" then .node .researcher else .stuck

/-- Conditional-edge mapping attached to `summarizer_agent`: only
`visualizer_agent` and `END` — the `"tools"` key the router can return
is absent. -/
def summarizerMap (k : String) : Dest :=
  if k = "visualizer_agent" then .node .visualizer
  else if k = endKey then .halt
  else .stuck

/-- Conditional-edge mapping attached to `visualizer_agent`: only
`END` — the `"tools"` key the router can return is absent. -/
def visualizerMap (k : String) : Dest :=
  if k = endKey then .halt else .stuck

/-- The next destination after node `n` has run, per `create_graph`:
`planner` has an unconditional edge to `researcher`; every other node
routes through its router and its conditional-edge mapping. -/
def nextDest (n : Node) (s : GState) : Dest :=
  match n with
  | .planner => .node .researcher
  | .researcher => researcherMap (route_from_researcher s)
  | .summarizer => summarizerMap (route_from_summarizer s)
  | .visualizer => visualizerMap (route_from_visualizer s)
  | .tools => toolsMap "researcher_agent"

/-- One LLM completion: text content plus requested tool calls. -/
structure LLMOut where
  content : String
  tool_calls : List String
deriving DecidableEq, Repr

/-- Messages appended by the visualizer node (`visualizer_agent` in
`agents/nodes.py`): the model's message alone if it carries a tool
call; otherwise, when `table_text` is truthy, an auto-plot is
attempted with the inferred chart kind — on success a tool-result
message (the file path, abstracted) and a follow-up AI message are
appended, on failure an AI message reporting the failure. -/
def visualizerMsgs (o : LLMOut) (tt : Option String) : List Msg :=
  let ai : Msg := .ai .visualizer o.content o.tool_calls
  if !o.tool_calls.isEmpty then [ai]
  else if !(tt.getD "" = "") then
    let ct := inferChartType o.content
    match plot_table (tt.getD "") ct with
    | .ok _ =>
        [ai, .tool .visualizer "saved plot file",
         .ai .visualizer ("Automatically plotted table as a " ++ ct ++ " chart") []]
    | .error _ =>
        [ai, .ai .visualizer "Failed to auto-plot the table" []]
  else [ai]

/-- Tool-result messages appended by the `ToolNode`: one per tool call
of the last message. -/
def toolResults (msgs : List Msg) : List Msg :=
  match msgs.getLast? with
  | some (.ai _ _ tcs) => tcs.map (fun name => .tool .tools name)
  | _ => []

/-- Messages a node's run appends to the state. -/
def nodeOutput (n : Node) (o : LLMOut) (msgs : List Msg) (tt : Option String) : List Msg :=
  match n with
  | .planner => [.ai .planner o.content o.tool_calls]
  | .researcher => [.ai .researcher o.content o.tool_calls]
  | .summarizer => [.ai .summarizer o.content o.tool_calls]
  | .visualizer => visualizerMsgs o tt
  | .tools => toolResults msgs

/-- Run one node: its output is appended to the message list
(`add_messages`); `mode` and `table_text` are untouched. -/
def runNode (n : Node) (o : LLMOut) (s : GState) : GState :=
  { s with messages := s.messages ++ nodeOutput n o s.messages s.table_text }

/-- How a fuelled run ended. -/
inductive RunStatus where
  | done
  | stuckAt
  | fuelOut
deriving DecidableEq, Repr

/-- Result of a fuelled run: visited nodes in order, final state, and
how the run ended. -/
structure RunRes where
  trace : List Node
  state : GState
  status : RunStatus
deriving DecidableEq, Repr

/-- Execute the compiled graph from node `n`: run the node (consuming
the next oracle answer unless the node is `tools`, which calls no LLM)
and follow `nextDest` until `END`, a routing failure, or fuel runs
out. -/
def run (orc : Nat → LLMOut) : Nat → Nat → Node → GState → RunRes
  | 0, _, _, s => ⟨[], s, .fuelOut⟩
  | fuel + 1, k, n, s =>
      let s' := runNode n (orc k) s
      let k' := if n = .tools then k else k + 1
      match nextDest n s' with
      | .halt => ⟨[n], s', .done⟩
      | .stuck => ⟨[n], s', .stuckAt⟩
      | .node m =>
          let r := run orc fuel k' m s'
          ⟨n :: r.trace, r.state, r.status⟩

/-- A full pipeline invocation: `START` has an edge to `planner`. -/
def runGraph (orc : Nat → LLMOut) (fuel : Nat) (s : GState) : RunRes :=
  run orc fuel 0 .planner s

/-! ## Helper lemmas -/

theorem updLast_eq (acc : Option HMsg) (m : HMsg) :
    updLast acc m = if isNonblankAI m then some m else acc := by
  cases m <;> simp [updLast, isNonblankAI]

theorem foldl_updLast (msgs : List HMsg) (acc : Option HMsg) :
    msgs.foldl updLast acc =
      match (msgs.filter isNonblankAI).getLast? with
      | some x => some x
      | none => acc := by
  induction msgs generalizing acc with
  | nil => simp
  | cons m rest ih =>
      rw [List.foldl_cons, ih, List.filter_cons, updLast_eq]
      cases hm : isNonblankAI m with
      | false => simp
      | true =>
          simp only [if_pos, cond_true]
          cases hr : (rest.filter isNonblankAI) with
          | nil => simp
          | cons y ys =>
              simp only [List.getLast?_cons_cons]
              cases hg : (y :: ys).getLast? with
              | none => simp at hg
              | some x => simp

/-! ## Claim C6 — `last_nonempty_ai_message` -/

/-- Claim C6: `last_nonempty_ai_message` returns the most recent
assistant message whose text content — after joining list-valued
content with spaces — is non-blank (formally: the last element of the
messages filtered to non-blank AI messages, which ignores tool-result
and human messages), returns `none` when no such assistant message
exists, and on `[assistant(""), assistant("  "), human("x"),
assistant("hello")]` returns the `"hello"` message. -/
theorem last_nonempty_ai_message_spec :
    (∀ msgs : List HMsg,
        last_nonempty_ai_message msgs = (msgs.filter isNonblankAI).getLast?)
    ∧ last_nonempty_ai_message
        [.ai (.str ""), .ai (.str "  "), .human "x", .ai (.str "hello")]
        = some (.ai (.str "hello"))
    ∧ (∀ msgs : List HMsg, (∀ m ∈ msgs, isNonblankAI m = false) →
        last_nonempty_ai_message msgs = none) := by
  have key : ∀ msgs : List HMsg,
      last_nonempty_ai_message msgs = (msgs.filter isNonblankAI).getLast? := by
    intro msgs
    rw [last_nonempty_ai_message, foldl_updLast]
    cases (msgs.filter isNonblankAI).getLast? <;> rfl
  refine ⟨key, by decide, ?_⟩
  intro msgs h
  rw [key]
  have : msgs.filter isNonblankAI = [] := by
    rw [List.filter_eq_nil_iff]
    intro a ha
    simp [h a ha]
  simp [this]

/-- Claim C6 witness: a sequence with no non-blank assistant message
(a human message, a blank assistant message and a tool message) yields
`none`. -/
theorem last_nonempty_ai_message_spec_witness :
    last_nonempty_ai_message [.human "x", .ai (.str "  "), .tool "t"] = none :=
  last_nonempty_ai_message_spec.2.2 [.human "x", .ai (.str "  "), .tool "t"] (by decide)

/-! ## Claim C10 — routing is a function of mode and tool-call presence -/

/-- Claim C10: every routing decision depends only on the `mode` field
and on whether the last message carries a non-empty tool-call list:
two states agreeing on those (with at least one message each, as is
the case whenever a router runs) get identical routes from all three
routers, regardless of earlier messages, text content or
`table_text`. -/
theorem routing_depends_only_on_mode_and_toolcalls :
    ∀ s1 s2 : GState, s1.messages ≠ [] → s2.messages ≠ [] →
      s1.mode = s2.mode →
      lastHasToolCalls s1.messages = lastHasToolCalls s2.messages →
      route_from_researcher s1 = route_from_researcher s2
        ∧ route_from_summarizer s1 = route_from_summarizer s2
        ∧ route_from_visualizer s1 = route_from_visualizer s2 := by
  intro s1 s2 _ _ hm ht
  unfold route_from_researcher route_from_summarizer route_from_visualizer
  rw [hm, ht]
  exact ⟨rfl, rfl, rfl⟩

/-- Claim C10 witness: two states differing in message content, history
and `table_text` but agreeing on mode and tool-call presence route
identically. -/
theorem routing_depends_only_on_mode_and_toolcalls_witness :
    route_from_researcher ⟨[.human "q", .ai .researcher "found it" []], some "full", none⟩
      = route_from_researcher ⟨[.ai .researcher "other" []], some "full", some "a,b\n1,2"⟩ :=
  (routing_depends_only_on_mode_and_toolcalls _ _ (by decide) (by decide) rfl
    (by decide)).1

/-! ## Claim C1 — where the Tool step returns control -/

/-- A state in which the summarizer has just requested a tool call. -/
def summarizerToolState : GState :=
  ⟨[.human "q", .ai .summarizer "plot it" ["plot_table"]], some "full", none⟩

/-- A state in which the visualizer has just requested a tool call. -/
def visualizerToolState : GState :=
  ⟨[.human "q", .ai .visualizer "plot it" ["plot_table"]], some "full", none⟩

/-- An oracle whose third completion (the summarizer's) requests a
tool call and whose other completions are plain text. -/
def summarizerToolOracle : Nat → LLMOut :=
  fun k => if k = 2 then ⟨"plot it", ["plot_table"]⟩ else ⟨"hi", []⟩

/-- Claim C1 (counterexample): a tool call issued by the Summarize step
is not followed by the Tool step and then Summarize again — the
summarizer's conditional-edge mapping has no `"tools"` entry, so the
router's `"tools"` key is unmapped and the run halts stuck right after
the summarizer: in a full-mode run whose third completion carries a
tool call the trace ends at the summarizer, and the one-step
destination from the summarizer (and likewise from the visualizer) is
`stuck`, not the Tool node. -/
theorem tool_call_from_summarizer_not_followed_by_summarizer :
    (runGraph summarizerToolOracle 10 ⟨[.human "q"], some "full", none⟩).trace
      = [.planner, .researcher, .summarizer]
    ∧ (runGraph summarizerToolOracle 10 ⟨[.human "q"], some "full", none⟩).status
      = .stuckAt
    ∧ lastHasToolCalls summarizerToolState.messages = true
    ∧ route_from_summarizer summarizerToolState = "tools"
    ∧ nextDest .summarizer summarizerToolState = .stuck
    ∧ nextDest .visualizer visualizerToolState = .stuck := by
  decide

/-- Claim C1 (amended): the Tool step always returns control to the
Research step.  Since the only edge into the Tool node is the
researcher's (a tool call from Summarize or Visualize makes its router
return the key `"tools"`, which its conditional-edge mapping does not
contain, halting the run as stuck), every executed tool was requested
by Research and control does return to its requester; a tool call
issued by Summarize or Visualize is never followed by that step
running again. -/
theorem tool_step_always_returns_to_researcher :
    (∀ s : GState, nextDest .tools s = .node .researcher)
    ∧ (∀ s : GState, lastHasToolCalls s.messages = true →
        nextDest .researcher s = .node .tools
          ∧ nextDest .summarizer s = .stuck
          ∧ nextDest .visualizer s = .stuck) := by
  constructor
  · intro s; rfl
  · intro s h
    simp [nextDest, route_from_researcher, route_from_summarizer, route_from_visualizer,
      researcherMap, summarizerMap, visualizerMap, endKey, h]

/-- Claim C1 amended witness: at a concrete state with a pending tool
call, the researcher routes to Tools and Tools routes back to the
researcher. -/
theorem tool_step_always_returns_to_researcher_witness :
    nextDest .tools summarizerToolState = .node .researcher
    ∧ nextDest .researcher summarizerToolState = .node .tools :=
  ⟨tool_step_always_returns_to_researcher.1 summarizerToolState,
   (tool_step_always_returns_to_researcher.2 summarizerToolState (by decide)).1⟩

/-! ## Claim C3 — auto-plot chart-kind inference -/

/-- Claim C3 (counterexample): the inference is not "bar whenever the
text contains the substring bar": for the text `"bar line"`, which
contains `"bar"`, the code picks `"line"`, because the bare-`"bar"`
case additionally requires that `"line"` not occur in the text. -/
theorem infer_chart_bar_not_sufficient :
    containsSub (lowerStr "bar line") "bar" = true
    ∧ inferChartType "bar line" = "line"
    ∧ ¬ inferChartType "bar line" = "bar" := by
  decide

/-- Claim C3 (amended): the auto-plot fallback picks kind `"bar"` iff
the lowercased text contains `"bar chart"`, or contains `"bar"` while
not containing `"line"`; otherwise `"scatter"` iff it contains
`"scatter"`; otherwise `"line"`.  In particular a message mentioning
`"bar chart"` always selects `"bar"`. -/
theorem infer_chart_characterization :
    ∀ content : String,
      (inferChartType content = "bar" ↔
        (containsSub (lowerStr content) "bar chart" = true
          ∨ (containsSub (lowerStr content) "bar" = true
              ∧ containsSub (lowerStr content) "line" = false)))
      ∧ (inferChartType content = "scatter" ↔
          (¬(containsSub (lowerStr content) "bar chart" = true
              ∨ (containsSub (lowerStr content) "bar" = true
                  ∧ containsSub (lowerStr content) "line" = false))
            ∧ containsSub (lowerStr content) "scatter" = true))
      ∧ (inferChartType content = "line" ↔
          (¬(containsSub (lowerStr content) "bar chart" = true
              ∨ (containsSub (lowerStr content) "bar" = true
                  ∧ containsSub (lowerStr content) "line" = false))
            ∧ containsSub (lowerStr content) "scatter" = false)) := by
  intro content
  simp only [inferChartType]
  cases h1 : containsSub (lowerStr content) "bar chart" <;>
    cases h2 : containsSub (lowerStr content) "bar" <;>
      cases h3 : containsSub (lowerStr content) "line" <;>
        cases h4 : containsSub (lowerStr content) "scatter" <;>
          simp [h1, h2, h3, h4]

/-- Claim C3 amended witness: a message mentioning a bar chart (and no
tool request) selects kind bar; the auto-plot path of the visualizer
then plots the table as a bar chart. -/
theorem infer_chart_characterization_witness :
    inferChartType "please make a bar chart of revenue over the years" = "bar" :=
  (infer_chart_characterization "please make a bar chart of revenue over the years").1.mpr
    (Or.inl (by decide))

/-! ## Column-selection lemmas (shared) -/

theorem chooseColumns_of_numeric (df : DataFrame) (i : Nat) (is : List Nat)
    (h : numericNonX df = i :: is) : chooseColumns df = some (chooseX df, i) := by
  simp [chooseColumns, h]

theorem chooseColumns_fallback (df : DataFrame)
    (h : numericNonX df = []) (h2 : 2 ≤ df.header.length) :
    chooseColumns df = some (chooseX df, 1) := by
  have h1 : 1 < df.header.length := h2
  simp [chooseColumns, h, h1]

theorem chooseColumns_single (df : DataFrame)
    (h : numericNonX df = []) (h2 : df.header.length < 2) :
    chooseColumns df = none := by
  have h1 : ¬ 1 < df.header.length := by omega
  have h3 : ¬ 2 ≤ df.header.length := by omega
  simp [chooseColumns, h, h1, h3]

theorem numericNonX_head_prop (df : DataFrame) (i : Nat) (is : List Nat)
    (h : numericNonX df = i :: is) : colNumeric df i = true ∧ ¬ i = chooseX df := by
  have hmem : i ∈ numericNonX df := by rw [h]; exact List.mem_cons_self i is
  unfold numericNonX at hmem
  have := List.of_mem_filter hmem
  simpa using this

/-! ## Claim C2 — column selection -/

/-- Claim C2 (counterexample): for the input
`"name,date\nAlice,foo\nBob,bar"` parsing succeeds although no column
is numeric, and the chosen y column (index 1, chosen as the
second-column fallback) equals the chosen x column (index 1, the
date-like name `"date"`) — refuting both "every successfully parsed
table has at least one numeric column other than the chosen x-column"
and "the chosen y-column is never equal to the chosen x-column". -/
theorem column_selection_x_equals_y :
    plot_table "name,date\nAlice,foo\nBob,bar" "line"
      = .ok ⟨⟨["name", "date"], [["Alice", "foo"], ["Bob", "bar"]]⟩, 1, 1, "line"⟩
    ∧ colNumeric ⟨["name", "date"], [["Alice", "foo"], ["Bob", "bar"]]⟩ 1 = false :=
  ⟨rfl, by decide⟩

/-- Claim C2 (amended): the x column is the first date-like column
(name containing `date`, `year` or `time` after lowercasing), else the
first column — as claimed.  The y column is the first all-numeric
column other than x when one exists (and is then distinct from x);
when none exists and the table has at least two columns, the second
declared column is used directly, without any numeric coercion and
even if it is non-numeric or equal to the x column; only a table with
fewer than two columns and no numeric column other than x fails with
the no-numeric-column error. -/
theorem column_selection_characterization :
    ∀ df : DataFrame,
      (∀ i is, numericNonX df = i :: is →
        chooseColumns df = some (chooseX df, i)
          ∧ colNumeric df i = true ∧ ¬ i = chooseX df)
      ∧ (numericNonX df = [] → 2 ≤ df.header.length →
          chooseColumns df = some (chooseX df, 1))
      ∧ (numericNonX df = [] → df.header.length < 2 →
          chooseColumns df = none) := by
  intro df
  refine ⟨?_, chooseColumns_fallback df, chooseColumns_single df⟩
  intro i is h
  exact ⟨chooseColumns_of_numeric df i is h,
    (numericNonX_head_prop df i is h).1, (numericNonX_head_prop df i is h).2⟩

/-- Claim C2 amended witness: on the table with header `a, b` and row
`1, 2`, column 1 is numeric and distinct from x, and is chosen
as y. -/
theorem column_selection_characterization_witness :
    chooseColumns ⟨["a", "b"], [["1", "2"]]⟩ = some (0, 1)
    ∧ colNumeric ⟨["a", "b"], [["1", "2"]]⟩ 1 = true :=
  have h := (column_selection_characterization ⟨["a", "b"], [["1", "2"]]⟩).1 1 []
    (by decide)
  ⟨h.1.trans (by decide), h.2.1⟩

/-! ## Claim C4 — when parsing fails -/

/-- Claim C4 (counterexample): the input
`"name,val\nAlice,foo\nBob,bar"` contains no numeric column at all,
yet `plot_table` succeeds (choosing the non-numeric second column as
y) instead of failing — refuting "fails ... when the parsed table
contains no usable numeric column". -/
theorem no_numeric_column_can_succeed :
    plot_table "name,val\nAlice,foo\nBob,bar" "line"
      = .ok ⟨⟨["name", "val"], [["Alice", "foo"], ["Bob", "bar"]]⟩, 0, 1, "line"⟩
    ∧ colNumeric ⟨["name", "val"], [["Alice", "foo"], ["Bob", "bar"]]⟩ 0 = false
    ∧ colNumeric ⟨["name", "val"], [["Alice", "foo"], ["Bob", "bar"]]⟩ 1 = false :=
  ⟨rfl, by decide, by decide⟩

/-- Claim C4 (amended): `plot_table` fails exactly when the stripped
input is empty, when all three strategies fail, or when the parsed
table has fewer than two columns and no numeric column other than x;
a parsed table with at least two columns never fails, even with no
numeric column at all. -/
theorem parse_failure_characterization :
    ∀ txt : String,
      (plot_table txt "line" = .error .emptyInput ↔ pyStrip txt = "")
      ∧ (plot_table txt "line" = .error .unparseable ↔
          (¬ pyStrip txt = "" ∧ parseDF (pyStrip txt) = none))
      ∧ (plot_table txt "line" = .error .noNumericColumn ↔
          (∃ df, ¬ pyStrip txt = "" ∧ parseDF (pyStrip txt) = some df
            ∧ numericNonX df = [] ∧ df.header.length < 2))
      ∧ ((∃ ok, plot_table txt "line" = .ok ok) ↔
          (¬ pyStrip txt = "" ∧ ∃ df, parseDF (pyStrip txt) = some df
            ∧ (¬ numericNonX df = [] ∨ 2 ≤ df.header.length))) := by
  intro txt
  by_cases h0 : pyStrip txt = ""
  · simp [plot_table, h0]
  · cases hp : parseDF (pyStrip txt) with
    | none => simp [plot_table, h0, hp]
    | some df =>
        cases hn : numericNonX df with
        | cons i is =>
            have hc := chooseColumns_of_numeric df i is hn
            simp [plot_table, h0, hp, hc, hn]
        | nil =>
            by_cases h2 : 2 ≤ df.header.length
            · have hc := chooseColumns_fallback df hn h2
              simp [plot_table, h0, hp, hc, hn, h2]
            · have hlt : df.header.length < 2 := by omega
              have hc := chooseColumns_single df hn hlt
              simp [plot_table, h0, hp, hc, hn, h2, hlt]

/-- Claim C4 amended witness: the single-column table
`"name\nAlice\nBob"` (parsed by the whitespace strategy) fails with the
no-numeric-column error. -/
theorem parse_failure_characterization_witness :
    plot_table "name\nAlice\nBob" "line" = .error .noNumericColumn :=
  (parse_failure_characterization "name\nAlice\nBob").2.2.1.mpr
    ⟨⟨["name"], [["Alice"], ["Bob"]]⟩, by decide, by decide, by decide, by decide⟩

/-! ## Claim C5 — markdown tables do not parse like the equivalent CSV -/

/-- Claim C5 (code bug): the markdown strategy removes the separator
row and the pipes at the ends of each line, but never turns the inner
pipes into the comma delimiter, so the two-column markdown table
`|a|b| / |---|---| / |1|2|` collapses to a single column named
`"a|b"` and then fails with the no-numeric-column error, while the
equivalent CSV `"a,b\n1,2"` parses to two columns and succeeds —
contradicting the documented claim that a markdown table parses
identically to the equivalent CSV. -/
theorem markdown_table_collapses_to_single_column :
    parseDF "|a|b|\n|---|---|\n|1|2|" = some ⟨["a|b"], [["1|2"]]⟩
    ∧ plot_table "|a|b|\n|---|---|\n|1|2|" "line" = .error .noNumericColumn
    ∧ plot_table "a,b\n1,2" "line"
        = .ok ⟨⟨["a", "b"], [["1", "2"]]⟩, 0, 1, "line"⟩ :=
  ⟨rfl, rfl, rfl⟩

/-! ## Claim C7 — chart-type dispatch -/

/-- Claim C7: `plot_table` never succeeds for a chart type other than
`line`, `bar` and `scatter`; an `unsupportedChart` error implies the
table had parsed and column selection had succeeded (the check takes
effect only then); and on any successfully parsed table each of the
three supported kinds succeeds while any other kind fails with
`unsupportedChart`. -/
theorem chart_type_dispatch :
    ∀ txt ct : String,
      (¬(ct = "line" ∨ ct = "bar" ∨ ct = "scatter") →
        ∀ ok, ¬ plot_table txt ct = .ok ok)
      ∧ (∀ e, plot_table txt ct = .error (.unsupportedChart e) →
          e = ct ∧ ¬ pyStrip txt = ""
            ∧ ∃ df x y, parseDF (pyStrip txt) = some df ∧ chooseColumns df = some (x, y))
      ∧ (∀ df x y, ¬ pyStrip txt = "" → parseDF (pyStrip txt) = some df →
          chooseColumns df = some (x, y) →
          ((ct = "line" ∨ ct = "bar" ∨ ct = "scatter") →
            plot_table txt ct = .ok ⟨df, x, y, ct⟩)
          ∧ (¬(ct = "line" ∨ ct = "bar" ∨ ct = "scatter") →
            plot_table txt ct = .error (.unsupportedChart ct))) := by
  intro txt ct
  have hok : ∀ df x y, ¬ pyStrip txt = "" → parseDF (pyStrip txt) = some df →
      chooseColumns df = some (x, y) → (ct = "line" ∨ ct = "bar" ∨ ct = "scatter") →
      plot_table txt ct = .ok ⟨df, x, y, ct⟩ := by
    intro df x y h0 hp hc hct
    simp [plot_table, h0, hp, hc, hct]
  have herr : ∀ df x y, ¬ pyStrip txt = "" → parseDF (pyStrip txt) = some df →
      chooseColumns df = some (x, y) → ¬(ct = "line" ∨ ct = "bar" ∨ ct = "scatter") →
      plot_table txt ct = .error (.unsupportedChart ct) := by
    intro df x y h0 hp hc hct
    simp [plot_table, h0, hp, hc, hct]
  refine ⟨?_, ?_, ?_⟩
  · intro hct ok hequ
    by_cases h0 : pyStrip txt = ""
    · simp [plot_table, h0] at hequ
    · cases hp : parseDF (pyStrip txt) with
      | none => simp [plot_table, h0, hp] at hequ
      | some df =>
          cases hc : chooseColumns df with
          | none => simp [plot_table, h0, hp, hc] at hequ
          | some xy =>
              rw [herr df xy.1 xy.2 h0 hp (by simpa using hc) hct] at hequ
              exact absurd hequ (by simp)
  · intro e he
    by_cases h0 : pyStrip txt = ""
    · simp [plot_table, h0] at he
    · cases hp : parseDF (pyStrip txt) with
      | none => simp [plot_table, h0, hp] at he
      | some df =>
          cases hc : chooseColumns df with
          | none => simp [plot_table, h0, hp, hc] at he
          | some xy =>
              by_cases hct : ct = "line" ∨ ct = "bar" ∨ ct = "scatter"
              · rw [hok df xy.1 xy.2 h0 hp (by simpa using hc) hct] at he
                exact absurd he (by simp)
              · rw [herr df xy.1 xy.2 h0 hp (by simpa using hc) hct] at he
                simp only [Except.error.injEq, PlotErr.unsupportedChart.injEq] at he
                have hc2 : chooseColumns df = some (xy.1, xy.2) := by simpa using hc
                exact ⟨he.symm, h0, df, xy.1, xy.2, rfl, hc2⟩
  · intro df x y h0 hp hc
    exact ⟨hok df x y h0 hp hc, herr df x y h0 hp hc⟩

/-- Claim C7 witness: on the valid table `"a,b\n1,2"`, chart type
`"pie"` fails with `unsupportedChart "pie"` while `"bar"` succeeds. -/
theorem chart_type_dispatch_witness :
    plot_table "a,b\n1,2" "pie" = .error (.unsupportedChart "pie")
    ∧ plot_table "a,b\n1,2" "bar"
        = .ok ⟨⟨["a", "b"], [["1", "2"]]⟩, 0, 1, "bar"⟩ :=
  ⟨(((chart_type_dispatch "a,b\n1,2" "pie").2.2
        ⟨["a", "b"], [["1", "2"]]⟩ 0 1 (by decide) (by decide) (by decide)).2
      (by decide)),
   (((chart_type_dispatch "a,b\n1,2" "bar").2.2
        ⟨["a", "b"], [["1", "2"]]⟩ 0 1 (by decide) (by decide) (by decide)).1
      (Or.inr (Or.inl rfl)))⟩

/-! ## Run lemmas (shared) -/

theorem getLast?_append2 (l : List α) (a b : α) :
    (l ++ [a, b]).getLast? = some b := by
  rw [List.getLast?_append_cons]
  rfl

theorem getLast?_append3 (l : List α) (a b c : α) :
    (l ++ [a, b, c]).getLast? = some c := by
  rw [List.getLast?_append_cons]
  rfl

theorem lastHTC_ai (msgs : List Msg) (a : Node) (s : String) (tcs : List String) :
    lastHasToolCalls (msgs ++ [.ai a s tcs]) = !tcs.isEmpty := by
  simp [lastHasToolCalls, List.getLast?_concat]

theorem lastHTC_visualizer (msgs : List Msg) (o : LLMOut) (tt : Option String)
    (h : o.tool_calls = []) :
    lastHasToolCalls (msgs ++ visualizerMsgs o tt) = false := by
  unfold visualizerMsgs
  rw [h]
  by_cases htt : tt.getD "" = ""
  · simp [htt, lastHasToolCalls, List.getLast?_concat, h]
  · cases hp : plot_table (tt.getD "") (inferChartType o.content) with
    | ok v => simp [htt, hp, lastHasToolCalls, getLast?_append3]
    | error e => simp [htt, hp, lastHasToolCalls, getLast?_append2]

theorem runNode_mode (n : Node) (o : LLMOut) (s : GState) :
    (runNode n o s).mode = s.mode := rfl

theorem runNode_messages (n : Node) (o : LLMOut) (s : GState) :
    (runNode n o s).messages = s.messages ++ nodeOutput n o s.messages s.table_text := rfl

theorem nodeOutput_research_authors (n : Node)
    (h : n = .planner ∨ n = .researcher ∨ n = .tools)
    (o : LLMOut) (msgs : List Msg) (tt : Option String) :
    (nodeOutput n o msgs tt).all notSumVis = true := by
  rcases h with h | h | h <;> subst h
  · rfl
  · rfl
  · show (toolResults msgs).all notSumVis = true
    unfold toolResults
    cases hm : msgs.getLast? with
    | none => rfl
    | some m =>
        cases m with
        | ai a c tcs => simp [List.all_map, notSumVis, msgAuthor]
        | human c => rfl
        | tool a c => rfl

/-- In research mode, a run started at the planner, researcher or
tools node only ever executes those nodes, so it never adds a
summarizer- or visualizer-authored message. -/
theorem research_run_invariant (orc : Nat → LLMOut) :
    ∀ (fuel k : Nat) (n : Node) (s : GState),
      s.mode = some "research" →
      (n = .planner ∨ n = .researcher ∨ n = .tools) →
      s.messages.all notSumVis = true →
      (run orc fuel k n s).state.messages.all notSumVis = true := by
  intro fuel
  induction fuel with
  | zero =>
      intro k n s _ _ h3
      simpa [run] using h3
  | succ f ih =>
      intro k n s h1 h2 h3
      have hmode : (runNode n (orc k) s).mode = some "research" := by
        rw [runNode_mode]; exact h1
      have hmsgs : (runNode n (orc k) s).messages.all notSumVis = true := by
        rw [runNode_messages, List.all_append, h3,
          nodeOutput_research_authors n h2 (orc k) s.messages s.table_text]
        rfl
      rcases h2 with h | h | h <;> subst h
      · -- planner: unconditional edge to the researcher
        simp only [run]
        exact ih (k + 1) .researcher (runNode .planner (orc k) s) hmode
          (Or.inr (Or.inl rfl)) hmsgs
      · -- researcher: tools on a tool call, else terminal in research mode
        simp only [run]
        cases htc : lastHasToolCalls (runNode .researcher (orc k) s).messages with
        | true =>
            simp only [nextDest, route_from_researcher, htc, if_pos, researcherMap,
              if_neg, reduceIte]
            exact ih (k + 1) .tools (runNode .researcher (orc k) s) hmode
              (Or.inr (Or.inr rfl)) hmsgs
        | false =>
            simp only [nextDest, route_from_researcher, htc, hmode, Option.getD_some,
              researcherMap, endKey, reduceIte]
            exact hmsgs
      · -- tools: unconditional edge back to the researcher
        simp only [run]
        exact ih k .researcher (runNode .tools (orc k) s) hmode
          (Or.inr (Or.inl rfl)) hmsgs

/-! ## Claim C8 — research mode stops after Research -/

/-- Claim C8: with mode `research`, a run (from a start state whose
messages carry no summarizer/visualizer authorship, e.g. the human
request) never produces a message authored by the Summarize or
Visualize step, for any LLM oracle and any fuel; moreover the
tool-call check takes precedence (a researcher message with tool calls
routes to Tools even in research mode), and without tool calls the
researcher routes straight to the terminal state. -/
theorem research_mode_no_downstream_messages :
    (∀ (orc : Nat → LLMOut) (fuel : Nat) (s : GState),
        s.mode = some "research" →
        s.messages.all notSumVis = true →
        (runGraph orc fuel s).state.messages.all notSumVis = true)
    ∧ (∀ s : GState, lastHasToolCalls s.messages = true →
        nextDest .researcher s = .node .tools)
    ∧ (∀ s : GState, s.mode = some "research" →
        lastHasToolCalls s.messages = false →
        nextDest .researcher s = .halt) := by
  refine ⟨?_, ?_, ?_⟩
  · intro orc fuel s h1 h2
    exact research_run_invariant orc fuel 0 .planner s h1 (Or.inl rfl) h2
  · intro s h
    simp [nextDest, route_from_researcher, h, researcherMap]
  · intro s h1 h2
    simp [nextDest, route_from_researcher, h1, h2, researcherMap, endKey]

/-- Claim C8 witness: a concrete research-mode run from a single human
message, with a plain-text oracle, ends with no summarizer- or
visualizer-authored message; and a researcher state with a pending
tool call routes to Tools. -/
theorem research_mode_no_downstream_messages_witness :
    (runGraph (fun _ => ⟨"hi", []⟩) 10 ⟨[.human "q"], some "research", none⟩).state.messages.all
        notSumVis = true
    ∧ nextDest .researcher ⟨[.ai .researcher "s" ["web_search"]], some "research", none⟩
        = .node .tools :=
  ⟨research_mode_no_downstream_messages.1 (fun _ => ⟨"hi", []⟩) 10
      ⟨[.human "q"], some "research", none⟩ rfl (by decide),
   research_mode_no_downstream_messages.2.1
      ⟨[.ai .researcher "s" ["web_search"]], some "research", none⟩ (by decide)⟩

/-! ## Claim C9 — default mode and the four-step full run -/

/-- Observable part of a run: visited nodes, final messages, status
(the final state's `mode` field itself is excluded, since comparing a
run with an absent mode to one with mode `full` is the point). -/
def obs (r : RunRes) : List Node × List Msg × RunStatus :=
  (r.trace, r.state.messages, r.status)

/-- A run with no `mode` key behaves exactly like a run with mode
`"full"`: same trace, same messages, same status. -/
theorem run_mode_default (orc : Nat → LLMOut) :
    ∀ (fuel k : Nat) (n : Node) (msgs : List Msg) (tt : Option String),
      obs (run orc fuel k n ⟨msgs, none, tt⟩)
        = obs (run orc fuel k n ⟨msgs, some "full", tt⟩) := by
  intro fuel
  induction fuel with
  | zero => intro k n msgs tt; rfl
  | succ f ih =>
      intro k n msgs tt
      have hd : nextDest n ⟨msgs ++ nodeOutput n (orc k) msgs tt, none, tt⟩
          = nextDest n ⟨msgs ++ nodeOutput n (orc k) msgs tt, some "full", tt⟩ := by
        cases n <;>
          simp [nextDest, route_from_researcher, route_from_summarizer,
            route_from_visualizer]
      simp only [run, runNode]
      rw [hd]
      cases hdd : nextDest n ⟨msgs ++ nodeOutput n (orc k) msgs tt, some "full", tt⟩ with
      | halt => rfl
      | stuck => rfl
      | node m =>
          have h := ih (if n = .tools then k else k + 1) m (msgs ++ nodeOutput n (orc k) msgs tt) tt
          simp only [obs, Prod.mk.injEq] at h ⊢
          exact ⟨by rw [h.1], h.2.1, h.2.2⟩

/-- Unfold one step of `run`. -/
theorem run_succ (orc : Nat → LLMOut) (fuel k : Nat) (n : Node) (s : GState) :
    run orc (fuel + 1) k n s =
      match nextDest n (runNode n (orc k) s) with
      | .halt => ⟨[n], runNode n (orc k) s, .done⟩
      | .stuck => ⟨[n], runNode n (orc k) s, .stuckAt⟩
      | .node m =>
          let r := run orc fuel (if n = .tools then k else k + 1) m (runNode n (orc k) s)
          ⟨n :: r.trace, r.state, r.status⟩ := rfl

/-- With no tool calls and a mode that is neither `research` nor
`summary`, the run visits exactly planner, researcher, summarizer,
visualizer, in order, and terminates. -/
theorem run_four_steps (orc : Nat → LLMOut) (mode : Option String)
    (msgs : List Msg) (tt : Option String) (f : Nat)
    (htc : ∀ i, (orc i).tool_calls = [])
    (hr : ¬ mode.getD "full" = "research") (hs : ¬ mode.getD "full" = "summary") :
    (runGraph orc (f + 4) ⟨msgs, mode, tt⟩).trace
        = [.planner, .researcher, .summarizer, .visualizer]
    ∧ (runGraph orc (f + 4) ⟨msgs, mode, tt⟩).status = .done := by
  have h1 := htc 1
  have h2 := htc 2
  have h3 := htc 3
  set s0 : GState := ⟨msgs, mode, tt⟩ with hs0
  set s1 := runNode .planner (orc 0) s0 with hs1
  set s2 := runNode .researcher (orc 1) s1 with hs2
  set s3 := runNode .summarizer (orc 2) s2 with hs3
  set s4 := runNode .visualizer (orc 3) s3 with hs4
  have mtc1 : lastHasToolCalls s2.messages = false := by
    rw [hs2, runNode_messages]
    show lastHasToolCalls
      (s1.messages ++ [.ai .researcher (orc 1).content (orc 1).tool_calls]) = false
    rw [lastHTC_ai, h1]
    rfl
  have mtc2 : lastHasToolCalls s3.messages = false := by
    rw [hs3, runNode_messages]
    show lastHasToolCalls
      (s2.messages ++ [.ai .summarizer (orc 2).content (orc 2).tool_calls]) = false
    rw [lastHTC_ai, h2]
    rfl
  have mtc3 : lastHasToolCalls s4.messages = false := by
    rw [hs4, runNode_messages]
    show lastHasToolCalls (s3.messages ++ visualizerMsgs (orc 3) s3.table_text) = false
    exact lastHTC_visualizer _ _ _ h3
  have d1 : nextDest .planner s1 = .node .researcher := rfl
  have d2 : nextDest .researcher s2 = .node .summarizer := by
    simp only [nextDest, route_from_researcher, mtc1]
    rw [show s2.mode = mode from rfl]
    simp [hr, researcherMap, endKey]
  have d3 : nextDest .summarizer s3 = .node .visualizer := by
    simp only [nextDest, route_from_summarizer, mtc2]
    rw [show s3.mode = mode from rfl]
    simp [hs, summarizerMap, endKey]
  have d4 : nextDest .visualizer s4 = .halt := by
    simp only [nextDest, route_from_visualizer, mtc3]
    simp [visualizerMap, endKey]
  have E4 : ∀ g : Nat, run orc (g + 1) 3 .visualizer s3 = ⟨[.visualizer], s4, .done⟩ := by
    intro g
    rw [run_succ]
    have d4x : nextDest .visualizer (runNode .visualizer (orc 3) s3) = .halt := d4
    rw [d4x]
  have E3 : ∀ g : Nat, run orc (g + 1 + 1) 2 .summarizer s2
      = ⟨[.summarizer, .visualizer], s4, .done⟩ := by
    intro g
    rw [run_succ]
    have d3x : nextDest .summarizer (runNode .summarizer (orc 2) s2) = .node .visualizer := d3
    rw [d3x]
    show (⟨Node.summarizer :: (run orc (g + 1) 3 Node.visualizer s3).trace,
          (run orc (g + 1) 3 Node.visualizer s3).state,
          (run orc (g + 1) 3 Node.visualizer s3).status⟩ : RunRes) = _
    rw [E4 g]
  have E2 : ∀ g : Nat, run orc (g + 1 + 1 + 1) 1 .researcher s1
      = ⟨[.researcher, .summarizer, .visualizer], s4, .done⟩ := by
    intro g
    rw [run_succ]
    have d2x : nextDest .researcher (runNode .researcher (orc 1) s1) = .node .summarizer := d2
    rw [d2x]
    show (⟨Node.researcher :: (run orc (g + 1 + 1) 2 Node.summarizer s2).trace,
          (run orc (g + 1 + 1) 2 Node.summarizer s2).state,
          (run orc (g + 1 + 1) 2 Node.summarizer s2).status⟩ : RunRes) = _
    rw [E3 g]
  have E1 : run orc (f + 1 + 1 + 1 + 1) 0 .planner s0
      = ⟨[.planner, .researcher, .summarizer, .visualizer], s4, .done⟩ := by
    rw [run_succ]
    have d1x : nextDest .planner (runNode .planner (orc 0) s0) = .node .researcher := d1
    rw [d1x]
    show (⟨Node.planner :: (run orc (f + 1 + 1 + 1) 1 Node.researcher s1).trace,
          (run orc (f + 1 + 1 + 1) 1 Node.researcher s1).state,
          (run orc (f + 1 + 1 + 1) 1 Node.researcher s1).status⟩ : RunRes) = _
    rw [E2 f]
  have efuel : f + 4 = f + 1 + 1 + 1 + 1 := rfl
  unfold runGraph
  rw [efuel, E1]
  exact ⟨rfl, rfl⟩

/-- Claim C9: when the `mode` key is absent the pipeline behaves as
mode `full` (same trace, messages and status for every oracle and
fuel); and for any mode other than `research` and `summary`, a run in
which no completion requests a tool executes Plan, Research,
Summarize, Visualize exactly once each, in that order, and then
terminates. -/
theorem default_mode_and_four_step_run :
    (∀ (orc : Nat → LLMOut) (fuel k : Nat) (n : Node) (msgs : List Msg)
        (tt : Option String),
      obs (run orc fuel k n ⟨msgs, none, tt⟩)
        = obs (run orc fuel k n ⟨msgs, some "full", tt⟩))
    ∧ (∀ (orc : Nat → LLMOut) (mode : Option String) (msgs : List Msg)
        (tt : Option String) (f : Nat),
      (∀ i, (orc i).tool_calls = []) →
      ¬ mode.getD "full" = "research" → ¬ mode.getD "full" = "summary" →
      (runGraph orc (f + 4) ⟨msgs, mode, tt⟩).trace
          = [.planner, .researcher, .summarizer, .visualizer]
      ∧ (runGraph orc (f + 4) ⟨msgs, mode, tt⟩).status = .done) :=
  ⟨fun orc fuel k n msgs tt => run_mode_default orc fuel k n msgs tt,
   fun orc mode msgs tt f htc hr hs => run_four_steps orc mode msgs tt f htc hr hs⟩

/-- Claim C9 witness: with an absent mode and a plain-text oracle, a
concrete run visits the four steps once each and terminates. -/
theorem default_mode_and_four_step_run_witness :
    (runGraph (fun _ => ⟨"hi", []⟩) (2 + 4) ⟨[.human "q"], none, none⟩).trace
        = [.planner, .researcher, .summarizer, .visualizer]
    ∧ (runGraph (fun _ => ⟨"hi", []⟩) (2 + 4) ⟨[.human "q"], none, none⟩).status = .done :=
  default_mode_and_four_step_run.2 (fun _ => ⟨"hi", []⟩) none [.human "q"] none 2
    (fun _ => rfl) (by decide) (by decide)

end MultiAgent
